import Mathlib

/-!
Shallow embedding of `src/app.py`, the year-over-year price dashboard.

Rows of the loaded dataframe are modelled as a list of `Row` records with
the derived calendar fields the loader computes; prices are exact
rationals.  Pandas `groupby` is modelled as a map over the sorted list of
distinct group keys; the sample standard deviation (`ddof = 1`) is an
`Option` that is `none` for buckets of fewer than two observations,
mirroring pandas' `NaN`.  `round(2)` is modelled as exact round-half-even
to two decimals.  In-place dataframe mutation (the `Quarter` column
assignment in `create_quarterly_chart`) is modelled by explicit state
passing: that function returns the figure together with the post-state of
the frame it received.
-/

/-- Round-half-even of a rational to an integer, as Python/pandas round. -/
def roundHE (x : ℚ) : ℤ :=
  let f := ⌊x⌋
  let r := x - (f : ℚ)
  if r < 1/2 then f
  else if 1/2 < r then f + 1
  else if f % 2 = 0 then f else f + 1

/-- Model of pandas `.round(2)`: round to two decimal places. -/
def round2 (x : ℚ) : ℚ := (roundHE (100 * x) : ℚ) / 100

/-- Rounded-to-2-decimals square root: the integer nearest `100 * sqrt q`
(ties to even) over 100.  Used to model the float `std` computation,
whose output the code immediately rounds to two decimals. -/
def roundSqrt2 (q : ℚ) : ℚ :=
  let a := (10000 * q).num.toNat
  let b := (10000 * q).den
  let n := Nat.sqrt (a / b)
  let k : ℤ :=
    if ((2 * n + 1 : ℚ)) ^ 2 < 40000 * q then n + 1
    else if (40000 : ℚ) * q < ((2 * n + 1 : ℚ)) ^ 2 then n
    else if n % 2 = 0 then n else n + 1
  (k : ℚ) / 100

/-- Arithmetic mean of a list of prices (pandas `mean`). -/
def mean (l : List ℚ) : ℚ := l.sum / (l.length : ℚ)

/-- Sample variance with `ddof = 1`, as pandas `std` squares it. -/
def sampleVar (l : List ℚ) : ℚ :=
  (l.map (fun x => (x - mean l) ^ 2)).sum / ((l.length : ℚ) - 1)

/-- Pandas `std` (ddof = 1) rounded to 2 decimals: `NaN` (here `none`)
for buckets with fewer than two observations. -/
def stdOpt (l : List ℚ) : Option ℚ :=
  if l.length < 2 then none else some (roundSqrt2 (sampleVar l))

/-- Minimum of a bucket of prices (pandas `min`; 0 on the empty list,
which never occurs for a groupby bucket). -/
def listMin : List ℚ → ℚ
  | [] => 0
  | x :: xs => xs.foldl min x

/-- Maximum of a bucket of prices (pandas `max`). -/
def listMax : List ℚ → ℚ
  | [] => 0
  | x :: xs => xs.foldl max x

/-- Insert into a sorted duplicate-free list of years. -/
def insUnique (x : ℤ) : List ℤ → List ℤ
  | [] => [x]
  | y :: ys =>
    if x < y then x :: y :: ys
    else if y < x then y :: insUnique x ys
    else y :: ys

/-- Model of `sorted(df[Year].unique())`. -/
def uniqueSorted (l : List ℤ) : List ℤ := l.foldr insUnique []

/-- Lexicographic strict order on groupby keys `(year, sub-bucket)`. -/
def keyLt (a b : ℤ × ℕ) : Prop := a.1 < b.1 ∨ (a.1 = b.1 ∧ a.2 < b.2)

instance : DecidablePred fun p : (ℤ × ℕ) × (ℤ × ℕ) => keyLt p.1 p.2 := by
  intro p
  unfold keyLt
  infer_instance

instance (a b : ℤ × ℕ) : Decidable (keyLt a b) := by
  unfold keyLt
  infer_instance

/-- Insert into a sorted duplicate-free list of groupby keys. -/
def insUniqueP (x : ℤ × ℕ) : List (ℤ × ℕ) → List (ℤ × ℕ)
  | [] => [x]
  | y :: ys =>
    if keyLt x y then x :: y :: ys
    else if keyLt y x then y :: insUniqueP x ys
    else y :: ys

/-- Sorted distinct groupby keys, as pandas `groupby` orders groups. -/
def pairUS (l : List (ℤ × ℕ)) : List (ℤ × ℕ) := l.foldr insUniqueP []

/-- One row of the loaded dataframe with its derived calendar fields.
The `quarter` field models the `Quarter` column: `none` until
`create_quarterly_chart` assigns it. -/
structure Row where
  year : ℤ
  month : ℕ
  dayOfYear : ℕ
  weekOfYear : ℕ
  price : ℚ
  quarter : Option ℕ
deriving DecidableEq

/-- Build a dataset row as `load_data` does (no `Quarter` column yet). -/
def mkRow (y : ℤ) (m d w : ℕ) (p : ℚ) : Row :=
  ⟨y, m, d, w, p, none⟩

/-- Pandas `dt.quarter` derived from the month: `ceil(month / 3)`. -/
def quarterOf (m : ℕ) : ℕ := (m + 2) / 3

/-- Effect on one row of the assignment `df[Quarter] = df.Date.dt.quarter`. -/
def withQuarter (r : Row) : Row :=
  { r with quarter := some (quarterOf r.month) }

/-- Model of `df[df.Year.isin(selected_years)]`. -/
def filterYears (df : List Row) (ys : List ℤ) : List Row :=
  df.filter (fun r => decide (r.year ∈ ys))

/-- Sorted distinct years of a frame: `sorted(df.Year.unique())`. -/
def yearsSorted (df : List Row) : List ℤ := uniqueSorted (df.map (·.year))

/-- Prices of one year's bucket in a per-year groupby. -/
def pricesOfYear (df : List Row) (y : ℤ) : List ℚ :=
  (df.filter (fun r => decide (r.year = y))).map (·.price)

/-- One output row of the monthly aggregation (`AvgPrice`, `StdPrice`). -/
structure MonthlyRow where
  year : ℤ
  month : ℕ
  avgPrice : ℚ
  stdPrice : Option ℚ
deriving DecidableEq

/-- Prices of the `(year, month)` bucket. -/
def monthlyBucket (df : List Row) (y : ℤ) (m : ℕ) : List ℚ :=
  (df.filter (fun r => decide (r.year = y ∧ r.month = m))).map (·.price)

/-- Model of the monthly `groupby([Year, Month]).agg(mean, std).round(2)`. -/
def monthlyAgg (df : List Row) : List MonthlyRow :=
  (pairUS (df.map fun r => (r.year, r.month))).map fun k =>
    let ps := monthlyBucket df k.1 k.2
    ⟨k.1, k.2, round2 (mean ps), stdOpt ps⟩

/-- One output row of the quarterly aggregation. -/
structure QuarterlyRow where
  year : ℤ
  quarter : ℕ
  avgPrice : ℚ
  minPrice : ℚ
  maxPrice : ℚ
  stdPrice : Option ℚ
deriving DecidableEq

/-- Prices of the `(year, quarter)` bucket, read from the `Quarter` column. -/
def quarterlyBucket (df : List Row) (y : ℤ) (q : ℕ) : List ℚ :=
  (df.filter (fun r => decide (r.year = y ∧ r.quarter.getD 0 = q))).map (·.price)

/-- Model of the quarterly `groupby([Year, Quarter]).agg(mean, min, max, std).round(2)`,
applied to a frame whose `Quarter` column has been assigned. -/
def quarterlyAgg (df : List Row) : List QuarterlyRow :=
  (pairUS (df.map fun r => (r.year, r.quarter.getD 0))).map fun k =>
    let ps := quarterlyBucket df k.1 k.2
    ⟨k.1, k.2, round2 (mean ps), round2 (listMin ps), round2 (listMax ps), stdOpt ps⟩

/-- One output row of the weekly aggregation. -/
structure WeeklyRow where
  year : ℤ
  week : ℕ
  price : ℚ
deriving DecidableEq

/-- Prices of the `(year, week-of-year)` bucket. -/
def weeklyBucket (df : List Row) (y : ℤ) (w : ℕ) : List ℚ :=
  (df.filter (fun r => decide (r.year = y ∧ r.weekOfYear = w))).map (·.price)

/-- Model of the weekly `groupby([Year, WeekOfYear]).agg(mean).round(2)`. -/
def weeklyAgg (df : List Row) : List WeeklyRow :=
  (pairUS (df.map fun r => (r.year, r.weekOfYear))).map fun k =>
    ⟨k.1, k.2, round2 (mean (weeklyBucket df k.1 k.2))⟩

/-- One plotly trace of a figure, with the fields the code sets. -/
structure Trace where
  kind : String
  name : String
  xs : List ℚ
  ys : List (Option ℚ)
  color : String
  errY : List (Option ℚ)
  fillMode : String
  fillColor : String
  yaxis : String
deriving DecidableEq

/-- Scatter line trace with a color and no error bars. -/
def lineTrace (nm : String) (xs : List ℚ) (ys : List (Option ℚ)) (c : String) : Trace :=
  ⟨"scatter", nm, xs, ys, c, [], "", "", "y"⟩

/-- Bar trace. -/
def barTrace (nm : String) (xs : List ℚ) (ys : List (Option ℚ)) (c : String) : Trace :=
  ⟨"bar", nm, xs, ys, c, [], "", "", "y"⟩

/-- Plotly figure descriptor: title, traces, and the optional placeholder
text added by `add_annotation` on the no-selection path. -/
structure Figure where
  title : String
  traces : List Trace
  note : Option String
deriving DecidableEq

/-- Fixed qualitative palette `plotly.express.colors.qualitative.Set1`. -/
def Set1 : List String :=
  ["rgb(228,26,28)", "rgb(55,126,184)", "rgb(77,175,74)", "rgb(152,78,163)",
   "rgb(255,127,0)", "rgb(255,255,51)", "rgb(166,86,40)", "rgb(247,129,191)",
   "rgb(153,153,153)"]

/-- Color of the `i`-th series: `colors[i % len(colors)]`. -/
def paletteColor (i : ℕ) : String := Set1.getD (i % Set1.length) ""

/-- Translucent fill color: `c.replace(rgb, rgba).replace(close, alpha-close)`. -/
def rgbaOf (c : String) : String :=
  (c.replace "rgb" "rgba").replace ")" ", 0.2)"

/-- Map with the running index, as Python `enumerate`. -/
def mapIdxFrom (f : ℕ → α → β) : ℕ → List α → List β
  | _, [] => []
  | n, x :: xs => f n x :: mapIdxFrom f (n + 1) xs

/-- Interleave per-year trace pairs in emission order (line then band). -/
def joinPairs : List (Trace × Trace) → List Trace
  | [] => []
  | (a, b) :: ts => a :: b :: joinPairs ts

/-- Stable insert of a row into a list sorted by day-of-year. -/
def insByDay (r : Row) : List Row → List Row
  | [] => [r]
  | s :: ss =>
    if r.dayOfYear ≤ s.dayOfYear then r :: s :: ss else s :: insByDay r ss

/-- Model of `sort_values(DayOfYear)`. -/
def sortByDay (l : List Row) : List Row := l.foldr insByDay []

/-- One year's trace of the overlay chart: the `i`-th iteration of the
chart's per-year loop. -/
def overlayTrace (df : List Row) (i : ℕ) (y : ℤ) : Trace :=
  let yd := sortByDay (df.filter (fun r => decide (r.year = y)))
  lineTrace (toString y) (yd.map (fun r => (r.dayOfYear : ℚ)))
    (yd.map (fun r => some r.price)) (paletteColor i)

/-- Model of `create_overlay_chart`: one raw price line per year on a
day-of-year axis. -/
def create_overlay_chart (df : List Row) : Figure :=
  { title := "Year-over-Year Price Comparison (Overlay by Day of Year)",
    traces := mapIdxFrom (overlayTrace df) 0 (yearsSorted df),
    note := none }

/-- Sorted distinct years of the monthly aggregate frame. -/
def monthlyChartYears (df : List Row) : List ℤ :=
  uniqueSorted ((monthlyAgg df).map (·.year))

/-- One year's trace of the monthly chart: mean-price line with the std
as error bars. -/
def monthlyTraceOf (md : List MonthlyRow) (i : ℕ) (y : ℤ) : Trace :=
  let yd := md.filter (fun r => decide (r.year = y))
  ⟨"scatter", toString y, yd.map (fun r => (r.month : ℚ)),
    yd.map (fun r => some r.avgPrice), paletteColor i,
    yd.map (·.stdPrice), "", "", "y"⟩

/-- Model of `create_monthly_chart`: one mean-price line per year with the
std as error bars. -/
def create_monthly_chart (df : List Row) : Figure :=
  { title := "Monthly Average Price Comparison",
    traces := mapIdxFrom (monthlyTraceOf (monthlyAgg df)) 0 (monthlyChartYears df),
    note := none }

/-- Sorted distinct years of the quarterly aggregate frame. -/
def quarterlyChartYears (df : List Row) : List ℤ :=
  uniqueSorted ((quarterlyAgg df).map (·.year))

/-- One year's pair of quarterly traces: the average line and the filled
min-max band sharing its palette index. -/
def quarterlyTracePair (qd : List QuarterlyRow) (i : ℕ) (y : ℤ) : Trace × Trace :=
  let yd := qd.filter (fun r => decide (r.year = y))
  (lineTrace (toString y ++ " Avg") (yd.map (fun r => (r.quarter : ℚ)))
     (yd.map (fun r => some r.avgPrice)) (paletteColor i),
   ⟨"scatter", toString y ++ " Range",
     yd.map (fun r => (r.quarter : ℚ)) ++ (yd.map (fun r => (r.quarter : ℚ))).reverse,
     yd.map (fun r => some r.maxPrice) ++ (yd.map (fun r => some r.minPrice)).reverse,
     "rgba(255,255,255,0)", [],
     if 0 < i then "tonexty" else "tozeroy",
     rgbaOf (paletteColor i), "y"⟩)

/-- Model of `create_quarterly_chart`.  The function first assigns the
`Quarter` column in place on the frame it received, so it returns the
figure together with the mutated frame. -/
def create_quarterly_chart (df : List Row) : Figure × List Row :=
  let df2 := df.map withQuarter
  ({ title := "Quarterly Price Comparison (Average with Min/Max Range)",
     traces := joinPairs (mapIdxFrom (quarterlyTracePair (quarterlyAgg df2)) 0
       (quarterlyChartYears df2)),
     note := none }, df2)

/-- Sorted distinct years of the weekly aggregate frame. -/
def weeklyChartYears (df : List Row) : List ℤ :=
  uniqueSorted ((weeklyAgg df).map (·.year))

/-- One year's trace of the weekly chart. -/
def weeklyTraceOf (wd : List WeeklyRow) (i : ℕ) (y : ℤ) : Trace :=
  let yd := wd.filter (fun r => decide (r.year = y))
  lineTrace (toString y) (yd.map (fun r => (r.week : ℚ)))
    (yd.map (fun r => some r.price)) (paletteColor i)

/-- Model of `create_weekly_chart`: one weekly-mean line per year. -/
def create_weekly_chart (df : List Row) : Figure :=
  { title := "Weekly Average Price Patterns",
    traces := mapIdxFrom (weeklyTraceOf (weeklyAgg df)) 0 (weeklyChartYears df),
    note := none }

/-- Insert into a list of prices sorted ascending. -/
def insLe (x : ℚ) : List ℚ → List ℚ
  | [] => [x]
  | y :: ys => if x ≤ y then x :: y :: ys else y :: insLe x ys

/-- Ascending sort of a bucket of prices. -/
def sortRat (l : List ℚ) : List ℚ := l.foldr insLe []

/-- Pandas `median`: middle element of the sorted bucket, or the average
of the two middle elements. -/
def medianOf (l : List ℚ) : ℚ :=
  let s := sortRat l
  let n := s.length
  if n = 0 then 0
  else if n % 2 = 1 then s.getD (n / 2) 0
  else (s.getD (n / 2 - 1) 0 + s.getD (n / 2) 0) / 2

/-- Model of `create_summary_stats_chart`: grouped bars for the per-year
mean and median. -/
def create_summary_stats_chart (df : List Row) : Figure :=
  let years := yearsSorted df
  { title := "Annual Price Statistics Comparison",
    traces :=
      [barTrace "Mean" (years.map (fun y => (y : ℚ)))
         (years.map (fun y => some (round2 (mean (pricesOfYear df y))))) "lightblue",
       barTrace "Median" (years.map (fun y => (y : ℚ)))
         (years.map (fun y => some (round2 (medianOf (pricesOfYear df y))))) "lightgreen"],
    note := none }

/-- Model of `create_volatility_chart`: per-year std bars on the primary
axis and the range-as-percent-of-mean line on the secondary axis. -/
def create_volatility_chart (df : List Row) : Figure :=
  let years := yearsSorted df
  { title := "Price Volatility Comparison",
    traces :=
      [barTrace "Standard Deviation" (years.map (fun y => (y : ℚ)))
         (years.map (fun y => stdOpt (pricesOfYear df y))) "coral",
       ⟨"scatter", "Range as % of Mean", years.map (fun y => (y : ℚ)),
         years.map (fun y =>
           let ps := pricesOfYear df y
           some (round2 ((listMax ps - listMin ps) / mean ps * 100))),
         "darkred", [], "", "", "y2"⟩],
    note := none }

/-- One row of the summary statistics table before rendering. -/
structure SummaryRow where
  year : ℤ
  days : ℕ
  mean : ℚ
  median : ℚ
  std : Option ℚ
  min : ℚ
  max : ℚ
  yoy : Option ℚ
deriving DecidableEq

/-- Default summary row used only as a `getD` fallback. -/
def dRow : SummaryRow := ⟨0, 0, 0, 0, none, 0, 0, none⟩

/-- Per-year summary statistics, `groupby(Year).agg(...).round(2)`, before
the year-over-year column is added. -/
def summaryBase (df : List Row) : List SummaryRow :=
  (yearsSorted df).map fun y =>
    let ps := pricesOfYear df y
    ⟨y, ps.length, round2 (mean ps), round2 (medianOf ps), stdOpt ps,
      round2 (listMin ps), round2 (listMax ps), none⟩

/-- Year-over-year percent change of the (already rounded) mean, then
rounded to two decimals: `pct_change() * 100` followed by `round(2)`. -/
def yoyOf (prev cur : ℚ) : ℚ := round2 ((cur - prev) / prev * 100)

/-- Walk of the summary rows filling the `YoY Change (Mean)` column from
the previous row's mean; the first row gets `NaN` (here `none`). -/
def withYoY : Option ℚ → List SummaryRow → List SummaryRow
  | _, [] => []
  | p, r :: rs =>
    { r with yoy := p.map (fun m => yoyOf m r.mean) } :: withYoY (some r.mean) rs

/-- Model of the dataframe part of `create_summary_table`. -/
def create_summary_table (df : List Row) : List SummaryRow :=
  withYoY none (summaryBase df)

/-- Rendered `YoY Change (Mean)` cell: a dash for `NaN`, otherwise the
value with its colorization flag (green / red / black). -/
inductive YoYCell where
  | dash : YoYCell
  | val : ℚ → String → YoYCell
deriving DecidableEq

/-- Rendering rule of the yoy cell in `create_summary_table`. -/
def renderYoY : Option ℚ → YoYCell
  | none => .dash
  | some v => .val v (if 0 < v then "green" else if v < 0 then "red" else "black")

/-- Rendered summary table: the header row plus one rendered row per
summary row. -/
structure STable where
  header : List String
  rows : List (SummaryRow × YoYCell)
deriving DecidableEq

/-- Column headers of the summary table. -/
def summaryHeader : List String :=
  ["Year", "Days", "Mean", "Median", "Std Dev", "Min", "Max", "YoY Change (Mean)"]

/-- Model of `create_summary_table` including rendering. -/
def summaryTable (df : List Row) : STable :=
  ⟨summaryHeader, (create_summary_table df).map (fun r => (r, renderYoY r.yoy))⟩

/-- Fourth output slot of the callback: either the no-data marker div or
a rendered table. -/
inductive TableOut where
  | noData : TableOut
  | table : STable → TableOut
deriving DecidableEq

/-- Placeholder figure returned for every chart slot when no year is
selected. -/
def emptyFig : Figure :=
  { title := "", traces := [], note := some "Please select at least one year" }

/-- Model of the `update_charts` callback: placeholder outputs on an empty
selection, otherwise filter by the selected years, pick the main chart by
the comparison type (anything unrecognized falls through to weekly), and
build the two secondary charts and the summary table. -/
def update_charts (df : List Row) (selectedYears : List ℤ) (comparisonType : String) :
    Figure × Figure × Figure × TableOut :=
  if selectedYears = [] then
    (emptyFig, emptyFig, emptyFig, TableOut.noData)
  else
    let filtered := filterYears df selectedYears
    let mainFig :=
      if comparisonType = "overlay" then create_overlay_chart filtered
      else if comparisonType = "monthly" then create_monthly_chart filtered
      else if comparisonType = "quarterly" then (create_quarterly_chart filtered).1
      else create_weekly_chart filtered
    (mainFig, create_summary_stats_chart filtered, create_volatility_chart filtered,
      TableOut.table (summaryTable filtered))

/-- Index of a year in a list of years (first hit), as Python `list.index`. -/
def idxOf (y : ℤ) : List ℤ → ℕ
  | [] => 0
  | x :: xs => if x = y then 0 else idxOf y xs + 1

/-- Modelled from the spec: the spec's coloring rule, with the palette
index taken as the position of the year in the sorted selected-year list
(the code instead indexes by position among the years present in the
filtered data). -/
def colorBySelectedIndex (y : ℤ) (sel : List ℤ) : String :=
  paletteColor (idxOf y (uniqueSorted sel))

/-! Defaults used as `getD` fallbacks, and small concrete datasets. -/

/-- Default trace used only as a `getD` fallback. -/
def dTrace : Trace := ⟨"", "", [], [], "", [], "", "", ""⟩

/-- Default monthly aggregate row used only as a `getD` fallback. -/
def dMRow : MonthlyRow := ⟨0, 0, 0, none⟩

/-- Default quarterly aggregate row used only as a `getD` fallback. -/
def dQRow : QuarterlyRow := ⟨0, 0, 0, 0, 0, none⟩

/-- Spec scenario dataset: year 2020 prices 10 and 20, year 2021 prices
30 and 50. -/
def exW : List Row :=
  [mkRow 2020 1 1 1 10, mkRow 2020 1 2 1 20, mkRow 2021 1 1 1 30, mkRow 2021 1 2 1 50]

/-- One-row dataset for year 2020. -/
def exC1 : List Row := [mkRow 2020 1 1 1 10]

/-- Dataset with years 2020 and 2022 but no 2021. -/
def exC7 : List Row := [mkRow 2020 1 1 1 10, mkRow 2022 1 2 1 20]

/-- One-row dataset whose price has three decimal digits. -/
def exC8 : List Row := [mkRow 2020 1 1 1 (1/8)]

/-- Property of having at most two decimal digits. -/
def twoDec (q : ℚ) : Prop := (q * 100).den = 1


/-! Helper lemmas about the sorted-unique key lists. -/

theorem mem_insUnique {a x : ℤ} {l : List ℤ} :
    a ∈ insUnique x l ↔ a = x ∨ a ∈ l := by
  induction l with
  | nil => simp [insUnique]
  | cons y ys ih =>
    rw [insUnique]
    split_ifs with h1 h2
    · simp only [List.mem_cons]
    · simp only [List.mem_cons, ih]
      tauto
    · have hxy : x = y := le_antisymm (not_lt.mp h2) (not_lt.mp h1)
      subst hxy
      simp only [List.mem_cons]
      tauto

theorem mem_uniqueSorted {a : ℤ} {l : List ℤ} :
    a ∈ uniqueSorted l ↔ a ∈ l := by
  induction l with
  | nil => simp [uniqueSorted]
  | cons x xs ih =>
    show a ∈ insUnique x (uniqueSorted xs) ↔ _
    rw [mem_insUnique, ih]
    simp [List.mem_cons]

theorem pairwise_insUnique {x : ℤ} {l : List ℤ}
    (h : l.Pairwise (· < ·)) : (insUnique x l).Pairwise (· < ·) := by
  induction l with
  | nil => simp [insUnique]
  | cons y ys ih =>
    rw [insUnique]
    rcases List.pairwise_cons.mp h with ⟨hy, hys⟩
    split_ifs with h1 h2
    · refine List.pairwise_cons.mpr ⟨?_, h⟩
      intro b hb
      rcases List.mem_cons.mp hb with rfl | hb'
      · exact h1
      · exact lt_trans h1 (hy b hb')
    · refine List.pairwise_cons.mpr ⟨?_, ih hys⟩
      intro b hb
      rcases mem_insUnique.mp hb with rfl | hb'
      · exact h2
      · exact hy b hb'
    · exact h

theorem pairwise_uniqueSorted (l : List ℤ) :
    (uniqueSorted l).Pairwise (· < ·) := by
  induction l with
  | nil => simp [uniqueSorted]
  | cons x xs ih => exact pairwise_insUnique ih

theorem pairwise_lt_ext : ∀ {l l' : List ℤ}, l.Pairwise (· < ·) →
    l'.Pairwise (· < ·) → (∀ a, a ∈ l ↔ a ∈ l') → l = l' := by
  intro l
  induction l with
  | nil =>
    intro l' _ _ hm
    cases l' with
    | nil => rfl
    | cons b t => exact absurd ((hm b).mpr (List.mem_cons_self b t)) (List.not_mem_nil b)
  | cons a t ih =>
    intro l' hp hp' hm
    cases l' with
    | nil => exact absurd ((hm a).mp (List.mem_cons_self a t)) (List.not_mem_nil a)
    | cons b t' =>
      rcases List.pairwise_cons.mp hp with ⟨ha, hpt⟩
      rcases List.pairwise_cons.mp hp' with ⟨hb, hpt'⟩
      have hab : a = b := by
        have h1 : a ∈ b :: t' := (hm a).mp (List.mem_cons_self a t)
        have h2 : b ∈ a :: t := (hm b).mpr (List.mem_cons_self b t')
        rcases List.mem_cons.mp h1 with h | h
        · exact h
        · rcases List.mem_cons.mp h2 with h' | h'
          · exact h'.symm
          · exact absurd (lt_trans (ha b h') (hb a h)) (lt_irrefl a)
      subst hab
      have hmt : ∀ c, c ∈ t ↔ c ∈ t' := by
        intro c
        constructor
        · intro hc
          rcases List.mem_cons.mp ((hm c).mp (List.mem_cons_of_mem a hc)) with rfl | h
          · exact absurd (ha c hc) (lt_irrefl c)
          · exact h
        · intro hc
          rcases List.mem_cons.mp ((hm c).mpr (List.mem_cons_of_mem a hc)) with rfl | h
          · exact absurd (hb c hc) (lt_irrefl c)
          · exact h
      rw [ih hpt hpt' hmt]

theorem uniqueSorted_ext {l l' : List ℤ} (h : ∀ a, a ∈ l ↔ a ∈ l') :
    uniqueSorted l = uniqueSorted l' :=
  pairwise_lt_ext (pairwise_uniqueSorted l) (pairwise_uniqueSorted l')
    (fun a => by rw [mem_uniqueSorted, mem_uniqueSorted]; exact h a)

theorem keyEq_of_not_lt {x y : ℤ × ℕ} (h1 : ¬ keyLt x y) (h2 : ¬ keyLt y x) :
    x = y := by
  obtain ⟨x1, x2⟩ := x
  obtain ⟨y1, y2⟩ := y
  simp only [keyLt, not_or, not_and] at h1 h2
  obtain ⟨h1a, h1b⟩ := h1
  obtain ⟨h2a, h2b⟩ := h2
  have he : x1 = y1 := le_antisymm (not_lt.mp h2a) (not_lt.mp h1a)
  subst he
  have he2 : x2 = y2 := by
    have ha := h1b rfl
    have hb := h2b rfl
    omega
  simp [he2]

theorem mem_insUniqueP {a x : ℤ × ℕ} {l : List (ℤ × ℕ)} :
    a ∈ insUniqueP x l ↔ a = x ∨ a ∈ l := by
  induction l with
  | nil => simp [insUniqueP]
  | cons y ys ih =>
    rw [insUniqueP]
    split_ifs with h1 h2
    · simp only [List.mem_cons]
    · simp only [List.mem_cons, ih]
      tauto
    · have hxy : x = y := keyEq_of_not_lt h1 h2
      subst hxy
      simp only [List.mem_cons]
      tauto

theorem mem_pairUS {a : ℤ × ℕ} {l : List (ℤ × ℕ)} :
    a ∈ pairUS l ↔ a ∈ l := by
  induction l with
  | nil => simp [pairUS]
  | cons x xs ih =>
    show a ∈ insUniqueP x (pairUS xs) ↔ _
    rw [mem_insUniqueP, ih]
    simp [List.mem_cons]

/-! Helper lemmas for indexed maps over the year list. -/

theorem mapIdxFrom_length (f : ℕ → α → β) (n : ℕ) (l : List α) :
    (mapIdxFrom f n l).length = l.length := by
  induction l generalizing n with
  | nil => rfl
  | cons x xs ih => simp [mapIdxFrom, ih]

theorem mapIdxFrom_getD (f : ℕ → α → β) (n i : ℕ) (l : List α) (d : β) (d₀ : α)
    (h : i < l.length) :
    (mapIdxFrom f n l).getD i d = f (n + i) (l.getD i d₀) := by
  induction l generalizing n i with
  | nil => simp at h
  | cons x xs ih =>
    cases i with
    | zero => simp [mapIdxFrom]
    | succ j =>
      have hj : j < xs.length := by simpa using h
      simp only [mapIdxFrom, List.getD_cons_succ]
      rw [ih (n + 1) j hj, show n + (j + 1) = n + 1 + j by omega]

theorem joinPairs_length (l : List (Trace × Trace)) :
    (joinPairs l).length = 2 * l.length := by
  induction l with
  | nil => rfl
  | cons p ps ih => simp [joinPairs, ih]; omega

theorem joinPairs_getD_even (l : List (Trace × Trace)) (i : ℕ) (d : Trace)
    (h : i < l.length) :
    (joinPairs l).getD (2 * i) d = (l.getD i (d, d)).1 := by
  induction l generalizing i with
  | nil => simp at h
  | cons p ps ih =>
    cases i with
    | zero => simp [joinPairs]
    | succ j =>
      have hj : j < ps.length := by simpa using h
      rw [show 2 * (j + 1) = (2 * j) + 1 + 1 by omega]
      simp only [joinPairs, List.getD_cons_succ]
      exact ih j hj

theorem joinPairs_getD_odd (l : List (Trace × Trace)) (i : ℕ) (d : Trace)
    (h : i < l.length) :
    (joinPairs l).getD (2 * i + 1) d = (l.getD i (d, d)).2 := by
  induction l generalizing i with
  | nil => simp at h
  | cons p ps ih =>
    cases i with
    | zero => simp [joinPairs]
    | succ j =>
      have hj : j < ps.length := by simpa using h
      rw [show 2 * (j + 1) + 1 = (2 * j + 1) + 1 + 1 by omega]
      simp only [joinPairs, List.getD_cons_succ]
      exact ih j hj

/-! Rounding produces at most two decimal digits. -/

theorem twoDec_intDiv100 (k : ℤ) : twoDec ((k : ℚ) / 100) := by
  unfold twoDec
  rw [div_mul_cancel₀ _ (by norm_num : (100 : ℚ) ≠ 0)]
  exact Rat.den_intCast k

theorem twoDec_round2 (x : ℚ) : twoDec (round2 x) :=
  twoDec_intDiv100 _

theorem twoDec_roundSqrt2 (q : ℚ) : twoDec (roundSqrt2 q) :=
  twoDec_intDiv100 _

/-! Helper lemmas about the year-over-year walk. -/

theorem withYoY_length (p : Option ℚ) (l : List SummaryRow) :
    (withYoY p l).length = l.length := by
  induction l generalizing p with
  | nil => rfl
  | cons r rs ih => simp [withYoY, ih]

theorem map_year_withYoY (p : Option ℚ) (l : List SummaryRow) :
    (withYoY p l).map (·.year) = l.map (·.year) := by
  induction l generalizing p with
  | nil => rfl
  | cons r rs ih => simp [withYoY, ih]

theorem withYoY_getD_mean (p : Option ℚ) (l : List SummaryRow) (i : ℕ) :
    ((withYoY p l).getD i dRow).mean = (l.getD i dRow).mean := by
  induction l generalizing p i with
  | nil => simp [withYoY]
  | cons r rs ih =>
    cases i with
    | zero => simp [withYoY]
    | succ j =>
      simp only [withYoY, List.getD_cons_succ]
      exact ih (some r.mean) j

theorem withYoY_getD_yoy (p : Option ℚ) (l : List SummaryRow) (i : ℕ)
    (h : i + 1 < l.length) :
    ((withYoY p l).getD (i + 1) dRow).yoy =
      some (yoyOf ((l.getD i dRow).mean) ((l.getD (i + 1) dRow).mean)) := by
  induction l generalizing p i with
  | nil => simp at h
  | cons r rs ih =>
    cases i with
    | zero =>
      cases rs with
      | nil => simp at h
      | cons r2 rs2 => simp [withYoY]
    | succ j =>
      have hj : j + 1 < rs.length := by simpa using h
      simp only [withYoY, List.getD_cons_succ]
      exact ih (some r.mean) j hj

theorem withYoY_head_yoy (l : List SummaryRow) :
    ((withYoY none l).getD 0 dRow).yoy = none := by
  cases l with
  | nil => rfl
  | cons r rs => simp [withYoY, dRow]

theorem map_year_summaryBase (df : List Row) :
    (summaryBase df).map (·.year) = yearsSorted df := by
  unfold summaryBase
  rw [List.map_map]
  exact List.map_id _

/-! Each aggregate frame mentions exactly the years of its input frame. -/

theorem mem_map_fst_pairUS (l : List (ℤ × ℕ)) (a : ℤ) :
    a ∈ (pairUS l).map Prod.fst ↔ a ∈ l.map Prod.fst := by
  simp only [List.mem_map]
  constructor
  · rintro ⟨k, hk, rfl⟩
    exact ⟨k, mem_pairUS.mp hk, rfl⟩
  · rintro ⟨k, hk, rfl⟩
    exact ⟨k, mem_pairUS.mpr hk, rfl⟩

theorem monthlyChartYears_eq (df : List Row) :
    monthlyChartYears df = yearsSorted df := by
  unfold monthlyChartYears yearsSorted
  apply uniqueSorted_ext
  intro a
  have h1 : (monthlyAgg df).map (·.year) =
      (pairUS (df.map fun r => (r.year, r.month))).map Prod.fst := by
    unfold monthlyAgg
    rw [List.map_map]
    rfl
  rw [h1, mem_map_fst_pairUS, List.map_map]
  exact Iff.rfl

theorem weeklyChartYears_eq (df : List Row) :
    weeklyChartYears df = yearsSorted df := by
  unfold weeklyChartYears yearsSorted
  apply uniqueSorted_ext
  intro a
  have h1 : (weeklyAgg df).map (·.year) =
      (pairUS (df.map fun r => (r.year, r.weekOfYear))).map Prod.fst := by
    unfold weeklyAgg
    rw [List.map_map]
    rfl
  rw [h1, mem_map_fst_pairUS, List.map_map]
  exact Iff.rfl

theorem quarterlyChartYears_eq (df : List Row) :
    quarterlyChartYears df = yearsSorted df := by
  unfold quarterlyChartYears yearsSorted
  apply uniqueSorted_ext
  intro a
  have h1 : (quarterlyAgg df).map (·.year) =
      (pairUS (df.map fun r => (r.year, r.quarter.getD 0))).map Prod.fst := by
    unfold quarterlyAgg
    rw [List.map_map]
    rfl
  rw [h1, mem_map_fst_pairUS, List.map_map]
  exact Iff.rfl

theorem yearsSorted_map_withQuarter (df : List Row) :
    yearsSorted (df.map withQuarter) = yearsSorted df := by
  unfold yearsSorted
  rw [List.map_map]
  rfl

/-! Every aggregate row's year is the year of some input row. -/

theorem year_of_monthlyAgg {dfF : List Row} {r : MonthlyRow}
    (h : r ∈ monthlyAgg dfF) : ∃ row ∈ dfF, row.year = r.year := by
  unfold monthlyAgg at h
  rcases List.mem_map.mp h with ⟨k, hk, rfl⟩
  rcases List.mem_map.mp (mem_pairUS.mp hk) with ⟨row, hrow, rfl⟩
  exact ⟨row, hrow, rfl⟩

theorem year_of_quarterlyAgg {dfF : List Row} {r : QuarterlyRow}
    (h : r ∈ quarterlyAgg dfF) : ∃ row ∈ dfF, row.year = r.year := by
  unfold quarterlyAgg at h
  rcases List.mem_map.mp h with ⟨k, hk, rfl⟩
  rcases List.mem_map.mp (mem_pairUS.mp hk) with ⟨row, hrow, rfl⟩
  exact ⟨row, hrow, rfl⟩

theorem year_of_weeklyAgg {dfF : List Row} {r : WeeklyRow}
    (h : r ∈ weeklyAgg dfF) : ∃ row ∈ dfF, row.year = r.year := by
  unfold weeklyAgg at h
  rcases List.mem_map.mp h with ⟨k, hk, rfl⟩
  rcases List.mem_map.mp (mem_pairUS.mp hk) with ⟨row, hrow, rfl⟩
  exact ⟨row, hrow, rfl⟩

theorem mem_filterYears {df : List Row} {ys : List ℤ} {r : Row}
    (h : r ∈ filterYears df ys) : r ∈ df ∧ r.year ∈ ys := by
  unfold filterYears at h
  rcases List.mem_filter.mp h with ⟨h1, h2⟩
  exact ⟨h1, of_decide_eq_true h2⟩

/-- C3: on the empty selection, `update_charts` returns the placeholder
figure for all three chart slots and the no-data marker for the table
slot, independently of the dataset and scheme — so no filtering or
grouping of the dataset is performed on this path (the right-hand side
does not depend on `df`). -/
theorem C3_empty_selection_placeholder (df : List Row) (s : String) :
    update_charts df [] s = (emptyFig, emptyFig, emptyFig, TableOut.noData) := by
  rfl

/-- C1 counterexample: with a non-empty dataset and the unrecognized
scheme string "banana", the `update_charts` dispatch does not fail with an
InvalidScheme error: it produces the weekly chart of the filtered data,
a genuine chart with one series.  No InvalidScheme check exists in the
code (`else: # weekly` catches everything). -/
theorem C1_counterexample :
    (update_charts exC1 [2020] "banana").1 =
      create_weekly_chart (filterYears exC1 [2020])
    ∧ ((update_charts exC1 [2020] "banana").1).traces.length = 1 := by
  constructor
  · rfl
  · decide

/-- C1 (amended): for every bucket scheme that is not one of 'overlay',
'monthly', 'quarterly', the dispatch silently falls through to the weekly
chart instead of failing with an InvalidScheme error. -/
theorem C1_amended_weekly_fallback (df : List Row) (ys : List ℤ) (s : String)
    (hne : ys ≠ []) (h1 : s ≠ "overlay") (h2 : s ≠ "monthly") (h3 : s ≠ "quarterly") :
    (update_charts df ys s).1 = create_weekly_chart (filterYears df ys) := by
  simp only [update_charts, if_neg hne, if_neg h1, if_neg h2, if_neg h3]

/-- C1 witness: the amended fallback at a concrete dataset and scheme. -/
theorem C1_witness :
    (([2020] : List ℤ) ≠ []) ∧ ("banana" ≠ "overlay") ∧ ("banana" ≠ "monthly")
    ∧ ("banana" ≠ "quarterly")
    ∧ (update_charts exC1 [2020] "banana").1 = create_weekly_chart (filterYears exC1 [2020]) :=
  ⟨by decide, by decide, by decide, by decide,
    C1_amended_weekly_fallback exC1 [2020] "banana" (by decide) (by decide) (by decide) (by decide)⟩

/-- C2 counterexample: `create_quarterly_chart` does not leave its input
unchanged: the assignment of the `Quarter` column mutates the frame it was
given (the post-state differs from the input on a frame whose rows lack
the column). -/
theorem C2_counterexample : (create_quarterly_chart exC1).2 ≠ exC1 := by
  decide

/-- C2 (amended): the aggregation operations are deterministic, and the
only side effect in the pipeline is that `create_quarterly_chart` writes
the derived `Quarter` column into its input frame: the post-state is the
input with `quarter` assigned on every row, all pre-existing fields are
preserved, and re-running the operation on the mutated frame yields the
identical figure and state.  (`update_charts` hands the quarterly builder
a copy of the filtered frame, so the shared dataset is never modified;
overlay, monthly and weekly read their input without modifying it and are
modelled as pure functions of the frame.) -/
theorem C2_amended_quarterly_mutation (df : List Row) :
    (create_quarterly_chart df).2 = df.map withQuarter
    ∧ (∀ r : Row, (withQuarter r).year = r.year ∧ (withQuarter r).month = r.month
        ∧ (withQuarter r).dayOfYear = r.dayOfYear
        ∧ (withQuarter r).weekOfYear = r.weekOfYear
        ∧ (withQuarter r).price = r.price)
    ∧ create_quarterly_chart ((create_quarterly_chart df).2) = create_quarterly_chart df := by
  have hmap : (df.map withQuarter).map withQuarter = df.map withQuarter := by
    rw [List.map_map]
    rfl
  refine ⟨rfl, fun r => ⟨rfl, rfl, rfl, rfl, rfl⟩, ?_⟩
  show create_quarterly_chart (df.map withQuarter) = create_quarterly_chart df
  unfold create_quarterly_chart
  rw [hmap]

/-- C6: every row of the monthly, quarterly and weekly aggregations of the
filtered frame carries a year that is both in the selection and present in
the dataset; consequently a selected year absent from the dataset
contributes zero rows, and no error is possible (all operations are total
functions). -/
theorem C6_no_year_leakage (df : List Row) (ys : List ℤ) :
    (∀ r ∈ monthlyAgg (filterYears df ys), r.year ∈ ys ∧ r.year ∈ df.map (·.year))
    ∧ (∀ r ∈ quarterlyAgg ((filterYears df ys).map withQuarter),
        r.year ∈ ys ∧ r.year ∈ df.map (·.year))
    ∧ (∀ r ∈ weeklyAgg (filterYears df ys), r.year ∈ ys ∧ r.year ∈ df.map (·.year))
    ∧ (∀ y ∈ ys, y ∉ df.map (·.year) →
        (∀ r ∈ monthlyAgg (filterYears df ys), r.year ≠ y)
        ∧ (∀ r ∈ quarterlyAgg ((filterYears df ys).map withQuarter), r.year ≠ y)
        ∧ (∀ r ∈ weeklyAgg (filterYears df ys), r.year ≠ y)) := by
  have hm : ∀ r ∈ monthlyAgg (filterYears df ys), r.year ∈ ys ∧ r.year ∈ df.map (·.year) := by
    intro r hr
    rcases year_of_monthlyAgg hr with ⟨row, hrow, hy⟩
    rcases mem_filterYears hrow with ⟨hdf, hys⟩
    exact ⟨hy ▸ hys, hy ▸ List.mem_map.mpr ⟨row, hdf, rfl⟩⟩
  have hq : ∀ r ∈ quarterlyAgg ((filterYears df ys).map withQuarter),
      r.year ∈ ys ∧ r.year ∈ df.map (·.year) := by
    intro r hr
    rcases year_of_quarterlyAgg hr with ⟨row, hrow, hy⟩
    rcases List.mem_map.mp hrow with ⟨row0, hrow0, rfl⟩
    rcases mem_filterYears hrow0 with ⟨hdf, hys⟩
    have hy0 : row0.year = r.year := hy
    exact ⟨hy0 ▸ hys, hy0 ▸ List.mem_map.mpr ⟨row0, hdf, rfl⟩⟩
  have hw : ∀ r ∈ weeklyAgg (filterYears df ys), r.year ∈ ys ∧ r.year ∈ df.map (·.year) := by
    intro r hr
    rcases year_of_weeklyAgg hr with ⟨row, hrow, hy⟩
    rcases mem_filterYears hrow with ⟨hdf, hys⟩
    exact ⟨hy ▸ hys, hy ▸ List.mem_map.mpr ⟨row, hdf, rfl⟩⟩
  refine ⟨hm, hq, hw, ?_⟩
  intro y _ habs
  refine ⟨?_, ?_, ?_⟩
  · intro r hr he
    exact habs (he ▸ (hm r hr).2)
  · intro r hr he
    exact habs (he ▸ (hq r hr).2)
  · intro r hr he
    exact habs (he ▸ (hw r hr).2)

/-- C6 witness: the first monthly aggregate row of a selection containing
the absent year 1999 is a 2020 row, and 2020 is in the selection. -/
theorem C6_witness :
    ((monthlyAgg (filterYears exC7 [2020, 1999])).getD 0 dMRow
        ∈ monthlyAgg (filterYears exC7 [2020, 1999]))
    ∧ ((monthlyAgg (filterYears exC7 [2020, 1999])).getD 0 dMRow).year
        ∈ ([2020, 1999] : List ℤ) :=
  ⟨by simp [monthlyAgg, filterYears, exC7, mkRow, pairUS, insUniqueP],
    ((C6_no_year_leakage exC7 [2020, 1999]).1 _
      (by simp [monthlyAgg, filterYears, exC7, mkRow, pairUS, insUniqueP])).1⟩

/-! Every field produced by the aggregations comes out of `round2` or
`roundSqrt2`, hence has at most two decimal digits. -/

theorem twoDec_of_stdOpt {l : List ℚ} {s : ℚ} (h : stdOpt l = some s) :
    twoDec s := by
  by_cases hl : l.length < 2
  · simp [stdOpt, hl] at h
  · simp only [stdOpt, if_neg hl, Option.some.injEq] at h
    exact h ▸ twoDec_roundSqrt2 _

theorem mem_summaryBase_fields {df : List Row} {r0 : SummaryRow}
    (h : r0 ∈ summaryBase df) :
    ∃ ps, r0.mean = round2 (mean ps) ∧ r0.median = round2 (medianOf ps)
      ∧ r0.std = stdOpt ps ∧ r0.min = round2 (listMin ps) ∧ r0.max = round2 (listMax ps) := by
  unfold summaryBase at h
  rcases List.mem_map.mp h with ⟨y, _, rfl⟩
  exact ⟨pricesOfYear df y, rfl, rfl, rfl, rfl, rfl⟩

theorem mem_withYoY_fields {p : Option ℚ} {l : List SummaryRow} {r : SummaryRow} :
    r ∈ withYoY p l →
    (∃ r0 ∈ l, r.mean = r0.mean ∧ r.median = r0.median ∧ r.std = r0.std
      ∧ r.min = r0.min ∧ r.max = r0.max)
    ∧ (r.yoy = none ∨ ∃ a b, r.yoy = some (yoyOf a b)) := by
  induction l generalizing p with
  | nil => intro h; simp [withYoY] at h
  | cons r0 rs ih =>
    intro h
    rw [withYoY] at h
    rcases List.mem_cons.mp h with rfl | h'
    · refine ⟨⟨r0, List.mem_cons_self _ _, rfl, rfl, rfl, rfl, rfl⟩, ?_⟩
      cases p with
      | none => exact Or.inl rfl
      | some m => exact Or.inr ⟨m, r0.mean, rfl⟩
    · rcases ih h' with ⟨⟨r1, hr1, hf⟩, hy⟩
      exact ⟨⟨r1, List.mem_cons_of_mem _ hr1, hf⟩, hy⟩

/-- C5: every numeric field of the monthly, quarterly and weekly aggregate
rows and of the summary-table rows (including the year-over-year change)
has at most two decimal digits; a standard deviation, when defined, also
has at most two decimal digits.  (The `days` field of a summary row is an
integer count and has no decimals.) -/
theorem C5_two_decimal_rounding (df : List Row) :
    (∀ r ∈ monthlyAgg df, twoDec r.avgPrice ∧ ∀ s, r.stdPrice = some s → twoDec s)
    ∧ (∀ r ∈ quarterlyAgg df, twoDec r.avgPrice ∧ twoDec r.minPrice ∧ twoDec r.maxPrice
        ∧ ∀ s, r.stdPrice = some s → twoDec s)
    ∧ (∀ r ∈ weeklyAgg df, twoDec r.price)
    ∧ (∀ r ∈ create_summary_table df, twoDec r.mean ∧ twoDec r.median ∧ twoDec r.min
        ∧ twoDec r.max ∧ (∀ s, r.std = some s → twoDec s)
        ∧ (∀ v, r.yoy = some v → twoDec v)) := by
  refine ⟨?_, ?_, ?_, ?_⟩
  · intro r hr
    rcases List.mem_map.mp hr with ⟨k, _, rfl⟩
    exact ⟨twoDec_round2 _, fun s hs => twoDec_of_stdOpt hs⟩
  · intro r hr
    rcases List.mem_map.mp hr with ⟨k, _, rfl⟩
    exact ⟨twoDec_round2 _, twoDec_round2 _, twoDec_round2 _, fun s hs => twoDec_of_stdOpt hs⟩
  · intro r hr
    rcases List.mem_map.mp hr with ⟨k, _, rfl⟩
    exact twoDec_round2 _
  · intro r hr
    rcases mem_withYoY_fields hr with ⟨⟨r0, hr0, he1, he2, he3, he4, he5⟩, hy⟩
    rcases mem_summaryBase_fields hr0 with ⟨ps, hm, hmed, hstd, hmin, hmax⟩
    refine ⟨he1 ▸ hm ▸ twoDec_round2 _, he2 ▸ hmed ▸ twoDec_round2 _,
      he4 ▸ hmin ▸ twoDec_round2 _, he5 ▸ hmax ▸ twoDec_round2 _, ?_, ?_⟩
    · intro s hs
      rw [he3, hstd] at hs
      exact twoDec_of_stdOpt hs
    · intro v hv
      rcases hy with hn | ⟨a, b, hab⟩
      · rw [hn] at hv
        exact absurd hv (by simp)
      · rw [hab] at hv
        rcases Option.some.injEq .. ▸ hv with rfl
        exact twoDec_round2 _

/-- C5 witness: the first weekly aggregate row of the scenario dataset has
a two-decimal price. -/
theorem C5_witness :
    ((weeklyAgg exC1).getD 0 ⟨0, 0, 0⟩ ∈ weeklyAgg exC1)
    ∧ twoDec ((weeklyAgg exC1).getD 0 ⟨0, 0, 0⟩).price :=
  ⟨by simp [weeklyAgg, exC1, mkRow, pairUS, insUniqueP],
    (C5_two_decimal_rounding exC1).2.2.1 _
      (by simp [weeklyAgg, exC1, mkRow, pairUS, insUniqueP])⟩

/-- C9: for every non-empty selection the presenter produces renderable
descriptors: the table slot is never the no-data marker, and the
volatility chart's secondary series holds, for every year present in the
filtered data, the defined value `round2((max - min) / mean * 100)` — the
division is total in the model, as the float division in the code is
(it never raises).  All chart builders are total functions, so no failure
path exists besides the placeholder branch. -/
theorem C9_volatility_always_defined (df : List Row) (ys : List ℤ) (s : String)
    (hne : ys ≠ []) :
    (update_charts df ys s).2.2.2 ≠ TableOut.noData
    ∧ ((update_charts df ys s).2.2.1).traces.getD 1 dTrace =
        ⟨"scatter", "Range as % of Mean",
          (yearsSorted (filterYears df ys)).map (fun y => (y : ℚ)),
          (yearsSorted (filterYears df ys)).map (fun y =>
            some (round2 ((listMax (pricesOfYear (filterYears df ys) y) -
              listMin (pricesOfYear (filterYears df ys) y)) /
              mean (pricesOfYear (filterYears df ys) y) * 100))),
          "darkred", [], "", "", "y2"⟩
    ∧ (∀ o ∈ (((update_charts df ys s).2.2.1).traces.getD 1 dTrace).ys, o.isSome) := by
  have h2 : ((update_charts df ys s).2.2.1).traces.getD 1 dTrace =
      ⟨"scatter", "Range as % of Mean",
        (yearsSorted (filterYears df ys)).map (fun y => (y : ℚ)),
        (yearsSorted (filterYears df ys)).map (fun y =>
          some (round2 ((listMax (pricesOfYear (filterYears df ys) y) -
            listMin (pricesOfYear (filterYears df ys) y)) /
            mean (pricesOfYear (filterYears df ys) y) * 100))),
        "darkred", [], "", "", "y2"⟩ := by
    simp only [update_charts, if_neg hne]
    rfl
  refine ⟨?_, h2, ?_⟩
  · simp only [update_charts, if_neg hne]
    intro h
    exact TableOut.noConfusion h
  · intro o ho
    rw [h2] at ho
    rcases List.mem_map.mp ho with ⟨y, _, rfl⟩
    rfl

/-- C9 witness: the no-data marker is absent for a concrete non-empty
selection. -/
theorem C9_witness :
    (([2020] : List ℤ) ≠ []) ∧ (update_charts exC1 [2020] "overlay").2.2.2 ≠ TableOut.noData :=
  ⟨by decide, (C9_volatility_always_defined exC1 [2020] "overlay" (by decide)).1⟩

/-- C10 counterexample: for a non-empty selection whose only year is
absent from the dataset, the summary-stats chart still contains its two
(bar) series with no data points, so not every chart of the non-placeholder
path has zero series. -/
theorem C10_counterexample :
    (update_charts exC1 [2099] "overlay").2.1.traces ≠ [] := by
  decide

/-- C10 (amended): a non-empty selection of years all absent from the
dataset does not take the placeholder path: the main chart has zero
series, the summary-stats and volatility charts contain their two fixed
series with empty data arrays, the table is a rendered table with only the
header (no rows) rather than the no-data marker, and the output differs
from the placeholder quadruple. -/
theorem C10_all_years_absent (df : List Row) (ys : List ℤ) (s : String)
    (hne : ys ≠ []) (habs : ∀ r ∈ df, r.year ∉ ys) :
    (update_charts df ys s).1.traces = []
    ∧ (update_charts df ys s).1.note = none
    ∧ (update_charts df ys s).2.1.traces.length = 2
    ∧ (∀ t ∈ (update_charts df ys s).2.1.traces, t.xs = [] ∧ t.ys = [])
    ∧ (update_charts df ys s).2.2.1.traces.length = 2
    ∧ (∀ t ∈ (update_charts df ys s).2.2.1.traces, t.xs = [] ∧ t.ys = [])
    ∧ (update_charts df ys s).2.2.2 = TableOut.table ⟨summaryHeader, []⟩
    ∧ (update_charts df ys s) ≠ (emptyFig, emptyFig, emptyFig, TableOut.noData) := by
  have hf : filterYears df ys = [] := by
    rw [filterYears, List.filter_eq_nil_iff]
    intro r hr
    simpa using habs r hr
  simp only [update_charts, if_neg hne, hf]
  refine ⟨?_, ?_, ?_, ?_, ?_, ?_, ?_, ?_⟩
  · split_ifs <;> rfl
  · split_ifs <;> rfl
  · rfl
  · intro t ht
    rcases List.mem_cons.mp ht with rfl | ht'
    · exact ⟨rfl, rfl⟩
    · rcases List.mem_cons.mp ht' with rfl | ht''
      · exact ⟨rfl, rfl⟩
      · exact absurd ht'' (List.not_mem_nil t)
  · rfl
  · intro t ht
    rcases List.mem_cons.mp ht with rfl | ht'
    · exact ⟨rfl, rfl⟩
    · rcases List.mem_cons.mp ht' with rfl | ht''
      · exact ⟨rfl, rfl⟩
      · exact absurd ht'' (List.not_mem_nil t)
  · rfl
  · intro h
    have := congrArg (fun q => q.2.2.2) h
    exact TableOut.noConfusion this

/-- C10 witness: the header-only table at a concrete all-absent selection. -/
theorem C10_witness :
    (([2099] : List ℤ) ≠ []) ∧ (∀ r ∈ exC1, r.year ∉ ([2099] : List ℤ))
    ∧ (update_charts exC1 [2099] "overlay").2.2.2 = TableOut.table ⟨summaryHeader, []⟩ :=
  ⟨by decide, by decide,
    (C10_all_years_absent exC1 [2099] "overlay" (by decide) (by decide)).2.2.2.2.2.2.1⟩

/-! Trace extraction lemmas for the four chart builders. -/

theorem overlay_trace_getD (df : List Row) (i : ℕ) (h : i < (yearsSorted df).length) :
    (create_overlay_chart df).traces.getD i dTrace =
      overlayTrace df i ((yearsSorted df).getD i 0) := by
  have hg := mapIdxFrom_getD (overlayTrace df) 0 i (yearsSorted df) dTrace (0 : ℤ) h
  rw [Nat.zero_add] at hg
  exact hg

theorem monthly_trace_getD (df : List Row) (i : ℕ) (h : i < (monthlyChartYears df).length) :
    (create_monthly_chart df).traces.getD i dTrace =
      monthlyTraceOf (monthlyAgg df) i ((monthlyChartYears df).getD i 0) := by
  have hg := mapIdxFrom_getD (monthlyTraceOf (monthlyAgg df)) 0 i (monthlyChartYears df)
    dTrace (0 : ℤ) h
  rw [Nat.zero_add] at hg
  exact hg

theorem weekly_trace_getD (df : List Row) (i : ℕ) (h : i < (weeklyChartYears df).length) :
    (create_weekly_chart df).traces.getD i dTrace =
      weeklyTraceOf (weeklyAgg df) i ((weeklyChartYears df).getD i 0) := by
  have hg := mapIdxFrom_getD (weeklyTraceOf (weeklyAgg df)) 0 i (weeklyChartYears df)
    dTrace (0 : ℤ) h
  rw [Nat.zero_add] at hg
  exact hg

theorem quarterly_trace_getD (df : List Row) (i : ℕ)
    (h : i < (quarterlyChartYears (df.map withQuarter)).length) :
    ((create_quarterly_chart df).1.traces.getD (2 * i) dTrace =
      (quarterlyTracePair (quarterlyAgg (df.map withQuarter)) i
        ((quarterlyChartYears (df.map withQuarter)).getD i 0)).1)
    ∧ ((create_quarterly_chart df).1.traces.getD (2 * i + 1) dTrace =
      (quarterlyTracePair (quarterlyAgg (df.map withQuarter)) i
        ((quarterlyChartYears (df.map withQuarter)).getD i 0)).2) := by
  have hlen : i < (mapIdxFrom (quarterlyTracePair (quarterlyAgg (df.map withQuarter))) 0
      (quarterlyChartYears (df.map withQuarter))).length := by
    rw [mapIdxFrom_length]
    exact h
  have hg := mapIdxFrom_getD (quarterlyTracePair (quarterlyAgg (df.map withQuarter))) 0 i
    (quarterlyChartYears (df.map withQuarter)) (dTrace, dTrace) (0 : ℤ) h
  rw [Nat.zero_add] at hg
  constructor
  · have he := joinPairs_getD_even (mapIdxFrom (quarterlyTracePair
      (quarterlyAgg (df.map withQuarter))) 0 (quarterlyChartYears (df.map withQuarter)))
      i dTrace hlen
    exact he.trans (congrArg Prod.fst hg)
  · have ho := joinPairs_getD_odd (mapIdxFrom (quarterlyTracePair
      (quarterlyAgg (df.map withQuarter))) 0 (quarterlyChartYears (df.map withQuarter)))
      i dTrace hlen
    exact ho.trans (congrArg Prod.snd hg)

/-- C7 counterexample: with dataset years 2020 and 2022 and selection
2020, 2021, 2022 (2021 absent from the data), the overlay trace for 2022
is the second series and gets palette index 1, not the index 2 that its
position in the sorted selected-year list would dictate. -/
theorem C7_counterexample :
    (((create_overlay_chart (filterYears exC7 [2020, 2021, 2022])).traces.getD 1 dTrace).name
        = "2022")
    ∧ (((create_overlay_chart (filterYears exC7 [2020, 2021, 2022])).traces.getD 1 dTrace).color
        = paletteColor 1)
    ∧ paletteColor 1 ≠ colorBySelectedIndex 2022 [2020, 2021, 2022] := by
  refine ⟨?_, ?_, ?_⟩ <;> decide

/-- C7 (amended): in every chart the series emitted in loop position `i`
has color `Set1[i % 9]`, where `i` is the position of the series' year in
the chart's sorted year list — the sorted list of years present in the
filtered data (equal to the aggregate frame's years for every scheme),
not the sorted selected-year list.  The quarterly band trace shares its
line's palette index through its translucent fill color. -/
theorem C7_palette_by_present_index (df : List Row) (i : ℕ) :
    (i < (yearsSorted df).length →
      ((create_overlay_chart df).traces.getD i dTrace).color = paletteColor i
      ∧ ((create_overlay_chart df).traces.getD i dTrace).name =
          toString ((yearsSorted df).getD i 0))
    ∧ (i < (monthlyChartYears df).length →
      ((create_monthly_chart df).traces.getD i dTrace).color = paletteColor i
      ∧ ((create_monthly_chart df).traces.getD i dTrace).name =
          toString ((monthlyChartYears df).getD i 0))
    ∧ monthlyChartYears df = yearsSorted df
    ∧ (i < (weeklyChartYears df).length →
      ((create_weekly_chart df).traces.getD i dTrace).color = paletteColor i
      ∧ ((create_weekly_chart df).traces.getD i dTrace).name =
          toString ((weeklyChartYears df).getD i 0))
    ∧ weeklyChartYears df = yearsSorted df
    ∧ (i < (quarterlyChartYears (df.map withQuarter)).length →
      ((create_quarterly_chart df).1.traces.getD (2 * i) dTrace).color = paletteColor i
      ∧ ((create_quarterly_chart df).1.traces.getD (2 * i + 1) dTrace).fillColor =
          rgbaOf (paletteColor i))
    ∧ quarterlyChartYears (df.map withQuarter) = yearsSorted df := by
  refine ⟨?_, ?_, monthlyChartYears_eq df, ?_, weeklyChartYears_eq df, ?_, ?_⟩
  · intro h
    rw [overlay_trace_getD df i h]
    exact ⟨rfl, rfl⟩
  · intro h
    rw [monthly_trace_getD df i h]
    exact ⟨rfl, rfl⟩
  · intro h
    rw [weekly_trace_getD df i h]
    exact ⟨rfl, rfl⟩
  · intro h
    rcases quarterly_trace_getD df i h with ⟨he, ho⟩
    rw [he, ho]
    exact ⟨rfl, rfl⟩
  · exact (quarterlyChartYears_eq (df.map withQuarter)).trans (yearsSorted_map_withQuarter df)

/-- C7 witness: the first overlay series of the dataset with years 2020
and 2022 carries the first palette color. -/
theorem C7_witness :
    (0 < (yearsSorted exC7).length)
    ∧ ((create_overlay_chart exC7).traces.getD 0 dTrace).color = paletteColor 0 :=
  ⟨by decide, ((C7_palette_by_present_index exC7 0).1 (by decide)).1⟩

/-- C8 counterexample: for a single-observation bucket whose price has
three decimal digits (1/8 = 0.125), the quarterly aggregation yields
min = max = mean = 0.12, the rounded price, which differs from the
observation's price. -/
theorem C8_counterexample :
    quarterlyBucket (exC8.map withQuarter) 2020 1 = [1/8]
    ∧ ((quarterlyAgg (exC8.map withQuarter)).getD 0 dQRow).avgPrice = 3/25
    ∧ (3/25 : ℚ) ≠ 1/8 := by
  refine ⟨?_, ?_, by norm_num⟩
  · simp [quarterlyBucket, exC8, mkRow, withQuarter, quarterOf]
  · have hfr : Int.fract ((25 : ℚ)/2) = 1/2 := by
      rw [Int.fract]
      norm_num
    norm_num [quarterlyAgg, exC8, mkRow, withQuarter, quarterOf, pairUS, insUniqueP,
      quarterlyBucket, mean, round2, roundHE, listMin, listMax, hfr]

/-- C8 (amended): a monthly bucket with fewer than two observations
produces a row whose mean is defined (the rounded bucket mean) and whose
standard deviation is null; a single-observation quarterly bucket
produces a row with min = max = mean = the observation's price rounded to
two decimals (equal to the price itself whenever the price has at most
two decimal digits) and a null standard deviation. -/
theorem C8_single_observation_buckets (df : List Row) :
    (∀ y m, (y, m) ∈ pairUS (df.map fun r => (r.year, r.month)) →
      (monthlyBucket df y m).length < 2 →
      (⟨y, m, round2 (mean (monthlyBucket df y m)), none⟩ : MonthlyRow) ∈ monthlyAgg df)
    ∧ (∀ y q p, (y, q) ∈ pairUS (df.map fun r => (r.year, r.quarter.getD 0)) →
      quarterlyBucket df y q = [p] →
      (⟨y, q, round2 p, round2 p, round2 p, none⟩ : QuarterlyRow) ∈ quarterlyAgg df) := by
  constructor
  · intro y m hk hlen
    have hstd : stdOpt (monthlyBucket df y m) = none := by
      simp [stdOpt, hlen]
    refine List.mem_map.mpr ⟨(y, m), hk, ?_⟩
    show (⟨y, m, round2 (mean (monthlyBucket df y m)),
      stdOpt (monthlyBucket df y m)⟩ : MonthlyRow) = _
    rw [hstd]
  · intro y q p hk hb
    refine List.mem_map.mpr ⟨(y, q), hk, ?_⟩
    show (⟨y, q, round2 (mean (quarterlyBucket df y q)),
      round2 (listMin (quarterlyBucket df y q)), round2 (listMax (quarterlyBucket df y q)),
      stdOpt (quarterlyBucket df y q)⟩ : QuarterlyRow) = _
    rw [hb]
    simp [mean, stdOpt, listMin, listMax]

/-- C8 witness: the single 2020 Q1 observation of price 10 yields the
quarterly row with min = max = mean = 10 and null std. -/
theorem C8_witness :
    ((2020, 1) ∈ pairUS ((exC1.map withQuarter).map fun r => (r.year, r.quarter.getD 0)))
    ∧ quarterlyBucket (exC1.map withQuarter) 2020 1 = [10]
    ∧ (⟨2020, 1, round2 10, round2 10, round2 10, none⟩ : QuarterlyRow)
        ∈ quarterlyAgg (exC1.map withQuarter) :=
  ⟨by simp [pairUS, insUniqueP, exC1, mkRow, withQuarter, quarterOf],
   by simp [quarterlyBucket, exC1, mkRow, withQuarter, quarterOf],
   (C8_single_observation_buckets (exC1.map withQuarter)).2 2020 1 10
     (by simp [pairUS, insUniqueP, exC1, mkRow, withQuarter, quarterOf])
     (by simp [quarterlyBucket, exC1, mkRow, withQuarter, quarterOf])⟩

/-- C4 counterexample: with dataset years 2020 and 2022 and the selection
2020, 2021, 2022, the summary table does not have one row per selected
year: its year column is the years present in the data, not the sorted
selected-year list. -/
theorem C4_counterexample :
    (create_summary_table (filterYears exC7 [2020, 2021, 2022])).map (·.year) ≠
      uniqueSorted [2020, 2021, 2022] := by
  have h : (create_summary_table (filterYears exC7 [2020, 2021, 2022])).map (·.year) =
      yearsSorted (filterYears exC7 [2020, 2021, 2022]) := by
    unfold create_summary_table
    rw [map_year_withYoY, map_year_summaryBase]
  rw [h]
  decide

/-- C4 (amended): the summary table has one row per selected year present
in the dataset, ordered ascending by year; the first row's yoy value is
null and renders as a dash; every later row's yoy value equals
`round2((mean[y] - mean[prev]) / mean[prev] * 100)` over the table's own
(rounded) means; a positive value renders green (the increase flag), a
negative one red (decrease), zero black (neutral). -/
theorem C4_summary_yoy (df : List Row) (ys : List ℤ) (hne : ys ≠ []) :
    ((create_summary_table (filterYears df ys)).map (·.year) =
      yearsSorted (filterYears df ys))
    ∧ ((create_summary_table (filterYears df ys)).map (·.year)).Pairwise (· < ·)
    ∧ ((create_summary_table (filterYears df ys)).getD 0 dRow).yoy = none
    ∧ renderYoY (((create_summary_table (filterYears df ys)).getD 0 dRow).yoy) = YoYCell.dash
    ∧ (∀ i, i + 1 < (create_summary_table (filterYears df ys)).length →
        ((create_summary_table (filterYears df ys)).getD (i + 1) dRow).yoy =
          some (round2 ((((create_summary_table (filterYears df ys)).getD (i + 1) dRow).mean -
            ((create_summary_table (filterYears df ys)).getD i dRow).mean) /
            ((create_summary_table (filterYears df ys)).getD i dRow).mean * 100)))
    ∧ (∀ v : ℚ, 0 < v → renderYoY (some v) = YoYCell.val v "green")
    ∧ (∀ v : ℚ, v < 0 → renderYoY (some v) = YoYCell.val v "red")
    ∧ renderYoY (some 0) = YoYCell.val 0 "black" := by
  unfold create_summary_table
  have h1 : (withYoY none (summaryBase (filterYears df ys))).map (·.year) =
      yearsSorted (filterYears df ys) := by
    rw [map_year_withYoY, map_year_summaryBase]
  refine ⟨h1, ?_, withYoY_head_yoy _, ?_, ?_, ?_, ?_, ?_⟩
  · rw [h1]
    exact pairwise_uniqueSorted _
  · rw [withYoY_head_yoy]
    rfl
  · intro i hi
    rw [withYoY_length] at hi
    rw [withYoY_getD_yoy none _ i hi, withYoY_getD_mean none _ (i + 1),
      withYoY_getD_mean none _ i]
    rfl
  · intro v hv
    simp [renderYoY, hv]
  · intro v hv
    have h0 : ¬ (0 : ℚ) < v := not_lt.mpr (le_of_lt hv)
    simp [renderYoY, h0, hv]
  · simp [renderYoY]

/-- C4 witness: on the spec scenario dataset (2020 mean 15, 2021 mean 40)
the second summary row's yoy value is the rounded percent change of the
table's means. -/
theorem C4_witness :
    (([2020, 2021] : List ℤ) ≠ [])
    ∧ (0 + 1 < (create_summary_table (filterYears exW [2020, 2021])).length)
    ∧ ((create_summary_table (filterYears exW [2020, 2021])).getD (0 + 1) dRow).yoy =
        some (round2 ((((create_summary_table (filterYears exW [2020, 2021])).getD (0 + 1) dRow).mean -
          ((create_summary_table (filterYears exW [2020, 2021])).getD 0 dRow).mean) /
          ((create_summary_table (filterYears exW [2020, 2021])).getD 0 dRow).mean * 100)) := by
  have hlen : 0 + 1 < (create_summary_table (filterYears exW [2020, 2021])).length := by
    simp [create_summary_table, withYoY_length, summaryBase, yearsSorted, filterYears,
      exW, mkRow, uniqueSorted, insUnique]
  exact ⟨by decide, hlen, (C4_summary_yoy exW [2020, 2021] (by decide)).2.2.2.2.1 0 hlen⟩
